import Mathlib

/-!
Shallow embedding of the frontend of the israeli-product-detection dashboard:
the REST client (api.ts), the shared data model (lib/types.ts), the UI
utilities (lib/utils.ts), the dashboard detection flow (the page component),
and the DetectionHistory / DetectionResultCard / SystemStatus components.
JavaScript numbers that carry confidences are modelled as rationals; fallible
JavaScript operations return Except; thrown JavaScript values are modelled by
the JsThrown structure below.
-/

/-- Model of a thrown JavaScript value: whether it is an Error instance, and
its message when it is. -/
structure JsThrown where
  isError : Bool
  message : String
deriving DecidableEq

/-- Model of the catch-clause pattern used throughout api.ts:
err instanceof Error ? err.message : fallback. -/
def catchMessage (e : JsThrown) (fallback : String) : String :=
  if e.isError then e.message else fallback

/-- Model of the JavaScript expression x || y where x is a possibly-absent
string: undefined and the empty string are falsy, so both fall back to y. -/
def jsOrString (x : Option String) (y : String) : String :=
  match x with
  | some s => if s = "" then y else s
  | none => y

/-- ApiResponse of lib/types.ts: success flag, optional data, optional error,
optional message. -/
structure ApiResponse (β : Type) where
  success : Bool
  data : Option β
  error : Option String
  message : Option String

/-- Risk level of lib/types.ts: one of high, medium, low. -/
inductive RiskLevel where
  | high
  | medium
  | low
deriving DecidableEq

/-- The fixed five-key detected-features mapping of DetectionResult. -/
structure DetectedFeatures where
  barcode_729 : Bool
  made_in_israel_text : Bool
  hebrew_text : Bool
  israeli_brand : Bool
  kosher_certification : Bool
deriving DecidableEq

/-- Optional brand metadata of DetectionResult. -/
structure BrandInfo where
  name : String
  category : String
  risk_level : RiskLevel
deriving DecidableEq

/-- DetectionResult of lib/types.ts. Confidence is modelled as a rational. -/
structure DetectionResult where
  is_israeli_product : Bool
  confidence : ℚ
  detected_features : DetectedFeatures
  brand_info : Option BrandInfo
  timestamp : String
  processing_time_ms : Option ℚ
deriving DecidableEq

/-- ModelInfo of lib/types.ts. -/
structure ModelInfo where
  status : String
  model_type : Option String
  n_estimators : Option Nat
  max_depth : Option Nat
  feature_count : Option Nat
  feature_names : Option (List String)
  brands_count : Option Nat

/-- One entry of the BrandDatabase mapping of lib/types.ts. -/
structure BrandEntry where
  products : List String
  category : String
  risk_level : RiskLevel

/-- BrandDatabase of lib/types.ts: a string-keyed mapping, modelled as an
association list. -/
abbrev BrandDatabase : Type := List (String × BrandEntry)

/-- The health-check payload: status string plus model readiness. -/
structure Health where
  status : String
  model_ready : Bool

/-- Model of a browser File: name, MIME type, byte contents. -/
structure JsFile where
  name : String
  type : String
  bytes : List Nat
deriving DecidableEq

/-- Model of a browser Blob: MIME type and byte contents, no name. -/
structure JsBlob where
  type : String
  bytes : List Nat

/-- Payload of the batch endpoint response. -/
structure BatchResults where
  results : List DetectionResult

/-- The JSON body of an HTTP error response, as read by handleResponse:
only the optional detail field matters. -/
structure ErrorBody where
  detail : Option String

/-- Model of a fetch Response as consumed by handleResponse: the ok flag,
status code and text, and the outcome of calling response.json() on the
error path (parsed as an error body) or on the success path (parsed as the
expected payload). A parse failure is a thrown value. -/
structure JsResponse (β : Type) where
  ok : Bool
  status : Nat
  statusText : String
  errorJson : Except JsThrown ErrorBody
  dataJson : Except JsThrown β

/-- DetectionApi.handleResponse of api.ts: non-2xx responses read the JSON
error body and surface its detail field, falling back to a generic
HTTP-status message; 2xx responses parse the payload; any value thrown
inside the try block is caught and converted to a non-success result. -/
def handleResponse {β : Type} (response : JsResponse β) : ApiResponse β :=
  if response.ok = false then
    match response.errorJson with
    | .ok errorData =>
        ⟨false, none,
          some (jsOrString errorData.detail
            ("HTTP " ++ toString response.status ++ ": " ++ response.statusText)),
          none⟩
    | .error e => ⟨false, none, some (catchMessage e "Unknown error occurred"), none⟩
  else
    match response.dataJson with
    | .ok data => ⟨true, some data, none, none⟩
    | .error e => ⟨false, none, some (catchMessage e "Unknown error occurred"), none⟩

/-- Multipart form data, modelled as an ordered list of name-value pairs. -/
abbrev FormData : Type := List (String × JsFile)

/-- Model of the try/catch wrapper shared by every DetectionApi method: a
fetch outcome that resolved to a response goes through handleResponse, a
thrown value is caught and becomes a non-success result with the method's
fallback message. -/
def tryHandle {β : Type} (fallback : String)
    (fetchResult : Except JsThrown (JsResponse β)) : ApiResponse β :=
  match fetchResult with
  | .ok response => handleResponse response
  | .error e => ⟨false, none, some (catchMessage e fallback), none⟩

/-- The form data built by DetectionApi.analyzeImage: the single image file
appended under the key image. -/
def singleFormData (imageFile : JsFile) : FormData :=
  [("image", imageFile)]

/-- The form data built by DetectionApi.analyzeImageFromBlob: the blob is
appended under the key image with the filename capture.jpg. -/
def blobFormData (imageBlob : JsBlob) : FormData :=
  [("image", ⟨"capture.jpg", imageBlob.type, imageBlob.bytes⟩)]

/-- The form data built by DetectionApi.analyzeBatch: each file of the input
list is appended in order under the key images. -/
def batchFormData (imageFiles : List JsFile) : FormData :=
  imageFiles.map (fun file => ("images", file))

/-- DetectionApi.analyzeImage of api.ts. The network is modelled as a
function from the submitted form data to a fetch outcome. -/
def analyzeImage (imageFile : JsFile)
    (fetch : FormData → Except JsThrown (JsResponse DetectionResult)) :
    ApiResponse DetectionResult :=
  tryHandle "Network error" (fetch (singleFormData imageFile))

/-- DetectionApi.analyzeImageFromBlob of api.ts. -/
def analyzeImageFromBlob (imageBlob : JsBlob)
    (fetch : FormData → Except JsThrown (JsResponse DetectionResult)) :
    ApiResponse DetectionResult :=
  tryHandle "Network error" (fetch (blobFormData imageBlob))

/-- DetectionApi.analyzeBatch of api.ts. -/
def analyzeBatch (imageFiles : List JsFile)
    (fetch : FormData → Except JsThrown (JsResponse BatchResults)) :
    ApiResponse BatchResults :=
  tryHandle "Network error" (fetch (batchFormData imageFiles))

/-- DetectionApi.getModelInfo of api.ts: a GET request, modelled by its fetch
outcome. -/
def getModelInfo (fetchResult : Except JsThrown (JsResponse ModelInfo)) :
    ApiResponse ModelInfo :=
  tryHandle "Network error" fetchResult

/-- DetectionApi.getBrandsDatabase of api.ts. -/
def getBrandsDatabase (fetchResult : Except JsThrown (JsResponse BrandDatabase)) :
    ApiResponse BrandDatabase :=
  tryHandle "Network error" fetchResult

/-- DetectionApi.healthCheck of api.ts. -/
def healthCheck (fetchResult : Except JsThrown (JsResponse Health)) :
    ApiResponse Health :=
  tryHandle "Network error" fetchResult

/-- getConfidenceColor of lib/utils.ts. -/
def getConfidenceColor (confidence : ℚ) : String :=
  if confidence ≥ 0.8 then "text-red-600"
  else if confidence ≥ 0.6 then "text-orange-600"
  else if confidence ≥ 0.4 then "text-yellow-600"
  else "text-green-600"

/-- getConfidenceBgColor of lib/utils.ts. -/
def getConfidenceBgColor (confidence : ℚ) : String :=
  if confidence ≥ 0.8 then "bg-red-50 border-red-200"
  else if confidence ≥ 0.6 then "bg-orange-50 border-orange-200"
  else if confidence ≥ 0.4 then "bg-yellow-50 border-yellow-200"
  else "bg-green-50 border-green-200"

/-- Rank of a text color class in the green < yellow < orange < red severity
order stated by the spec; classes outside the four buckets rank 0. This
definition follows the spec's words and exists only to compare buckets. -/
def colorRank (c : String) : Nat :=
  if c = "text-green-600" then 0
  else if c = "text-yellow-600" then 1
  else if c = "text-orange-600" then 2
  else if c = "text-red-600" then 3
  else 0

/-- Rank of a background color class in the same severity order. -/
def bgColorRank (c : String) : Nat :=
  if c = "bg-green-50 border-green-200" then 0
  else if c = "bg-yellow-50 border-yellow-200" then 1
  else if c = "bg-orange-50 border-orange-200" then 2
  else if c = "bg-red-50 border-red-200" then 3
  else 0

/-- isAsciiWhitespace of the forgiving-base64 algorithm implemented by atob:
tab, newline, form feed, carriage return, space. -/
def isAsciiWs (c : Char) : Bool :=
  c = ' ' ∨ c = '\t' ∨ c = '\n' ∨ c.toNat = 12 ∨ c = '\r'

/-- Whether a character belongs to the base64 alphabet (without padding). -/
def isB64Char (c : Char) : Bool :=
  ('A' ≤ c ∧ c ≤ 'Z') ∨ ('a' ≤ c ∧ c ≤ 'z') ∨ ('0' ≤ c ∧ c ≤ '9') ∨ c = '+' ∨ c = '/'

/-- Numeric value of a base64 alphabet character. -/
def b64Val (c : Char) : Nat :=
  if 'A' ≤ c ∧ c ≤ 'Z' then c.toNat - 65
  else if 'a' ≤ c ∧ c ≤ 'z' then c.toNat - 71
  else if '0' ≤ c ∧ c ≤ '9' then c.toNat + 4
  else if c = '+' then 62
  else 63

/-- Strip up to two trailing padding characters, as the forgiving-base64
algorithm does when the stripped length is a multiple of four. -/
def dropTrailingPad (t : List Char) : List Char :=
  match t.reverse with
  | '=' :: '=' :: rest => rest.reverse
  | '=' :: rest => rest.reverse
  | _ => t

/-- Decode a whitespace-free, padding-free base64 character list: groups of
four characters yield three bytes; a trailing group of two or three yields
one or two bytes. -/
def b64DecodeChunks : List Char → List Nat
  | a :: b :: c :: d :: rest =>
      (b64Val a * 4 + b64Val b / 16) ::
      (b64Val b % 16 * 16 + b64Val c / 4) ::
      (b64Val c % 4 * 64 + b64Val d) ::
      b64DecodeChunks rest
  | [a, b] => [b64Val a * 4 + b64Val b / 16]
  | [a, b, c] =>
      [b64Val a * 4 + b64Val b / 16, b64Val b % 16 * 16 + b64Val c / 4]
  | _ => []

/-- Model of the atob platform primitive: the forgiving-base64 decode.
Whitespace is stripped, then padding; a remaining length congruent to one
modulo four or a character outside the alphabet throws
InvalidCharacterError. -/
def atob (s : List Char) : Except JsThrown (List Nat) :=
  let stripped := s.filter (fun c => !isAsciiWs c)
  let t := if stripped.length % 4 = 0 then dropTrailingPad stripped else stripped
  if t.length % 4 = 1 then .error ⟨true, "InvalidCharacterError"⟩
  else if t.all isB64Char then .ok (b64DecodeChunks t)
  else .error ⟨true, "InvalidCharacterError"⟩

/-- Model of passing a possibly-undefined value to atob: undefined is
coerced to the string undefined before decoding. -/
def atobArg (o : Option (List Char)) : List Char :=
  match o with
  | some l => l
  | none => "undefined".toList

/-- Whether a character is matched by the JavaScript regex dot: everything
except line terminators. -/
def jsDot (c : Char) : Bool :=
  !(c = '\n' ∨ c = '\r' ∨ c.toNat = 8232 ∨ c.toNat = 8233)

/-- The lazy group of the regex colon-semicolon pattern, attempted at a fixed
start position: the characters up to the first semicolon, provided only
dot-matchable characters stand before it. -/
def lazyGroup : List Char → Option (List Char)
  | [] => none
  | c :: cs =>
      if c = ';' then some []
      else if jsDot c then (lazyGroup cs).map (fun g => c :: g)
      else none

/-- First match of the regex used by dataURLtoFile over a character list:
scan left to right for a colon from which the lazy group succeeds, and
return that group. -/
def matchColonSemi : List Char → Option (List Char)
  | [] => none
  | c :: cs =>
      if c = ':' then
        match lazyGroup cs with
        | some g => some g
        | none => matchColonSemi cs
      else matchColonSemi cs

/-- JavaScript String.split on a single separator character: the resulting
list is never empty. -/
def jsSplit (sep : Char) : List Char → List (List Char)
  | [] => [[]]
  | c :: cs =>
      match jsSplit sep cs with
      | [] => [[]]
      | h :: t => if c = sep then [] :: h :: t else (c :: h) :: t

/-- One pass of the while loop of dataURLtoFile: write index k of the array
from index k of the decoded string, for k from n - 1 down to 0. -/
def fillLoop (bstr : List Nat) : Nat → List Nat → List Nat
  | 0, u8arr => u8arr
  | Nat.succ k, u8arr => fillLoop bstr k (u8arr.set k (bstr.getD k 0))

/-- The Uint8Array built by dataURLtoFile: a zero-filled array of the length
of the decoded string, filled by the backwards while loop. -/
def u8arrOf (bstr : List Nat) : List Nat :=
  fillLoop bstr bstr.length (List.replicate bstr.length 0)

/-- dataURLtoFile of lib/utils.ts: split on commas, extract the MIME type
from the part before the first comma with the colon-semicolon regex (a
failed match throws a TypeError through the non-null assertion), decode the
part after the first comma with atob, and build the file. -/
def dataURLtoFile (dataurl : List Char) (filename : String) :
    Except JsThrown JsFile :=
  let arr := jsSplit ',' dataurl
  match matchColonSemi (arr.headD []) with
  | none => .error ⟨true, "TypeError"⟩
  | some mime =>
      match atob (atobArg arr[1]?) with
      | .error e => .error e
      | .ok bstr => .ok ⟨filename, String.mk mime, u8arrOf bstr⟩


/-- The outcome of an analyzeImage call as consumed by the dashboard: the
method provably returns either a success result carrying data or a
non-success result carrying an error, and detectProduct reads exactly
these two shapes (result.success, then result.data with a non-null
assertion, or result.error). -/
inductive ApiResult (β : Type) where
  | ok (d : β)
  | fail (err : Option String)

/-- The ApiResponse corresponding to an ApiResult. -/
def toApiResponse {β : Type} : ApiResult β → ApiResponse β
  | .ok d => ⟨true, some d, none, none⟩
  | .fail err => ⟨false, none, err, none⟩

/-- The detection-related state of the Dashboard component. -/
structure DashState where
  isDetecting : Bool
  detectionResult : Option DetectionResult
  error : Option String
  detectionHistory : List DetectionResult

/-- detectProduct of the Dashboard component: set isDetecting and clear the
error, call analyzeImage once, on success store the result and prepend it
to the history truncated to the first nine previous entries, on a
non-success result throw and catch the error message, and finally clear
isDetecting. The second component counts the analyzeImage calls made. -/
def detectProduct (s : DashState) (result : ApiResult DetectionResult) :
    DashState × Nat :=
  let s1 : DashState := { s with isDetecting := true, error := none }
  match result with
  | .ok data =>
      ({ s1 with
          detectionResult := some data,
          detectionHistory := data :: s1.detectionHistory.take 9,
          isDetecting := false }, 1)
  | .fail err =>
      ({ s1 with
          error := some (jsOrString err "Gagal melakukan deteksi produk"),
          isDetecting := false }, 1)

/-- The statistics computed by the DetectionHistory component for a
non-empty history. -/
structure HistoryStats where
  totalDetections : Nat
  israeliProducts : Nat
  safeProducts : Nat
  averageConfidence : ℚ
deriving DecidableEq

/-- What the DetectionHistory component renders: the empty placeholder, or
the statistics header plus the entry list. -/
inductive HistoryView where
  | empty
  | stats (st : HistoryStats) (entries : List DetectionResult)
deriving DecidableEq

/-- The DetectionHistory component of DetectionHistory.tsx: an empty history
renders the placeholder before any statistic is computed; otherwise the
four statistics are computed over the full history and the entries are
rendered in order. -/
def DetectionHistory (history : List DetectionResult) : HistoryView :=
  if history.length = 0 then .empty
  else
    .stats
      { totalDetections := history.length
        israeliProducts := (history.filter (fun h => h.is_israeli_product)).length
        safeProducts :=
          history.length - (history.filter (fun h => h.is_israeli_product)).length
        averageConfidence :=
          (history.map (fun h => h.confidence)).sum / (history.length : ℚ) }
      history

/-- The brand block rendered by DetectionResultCard when brand info is
present: name, category, risk level with its color class. -/
structure BrandBlock where
  name : String
  category : String
  risk_level : RiskLevel

/-- What the DetectionResultCard component renders: the verdict, the
confidence with its color class, and the brand block only when the result
carries brand info. -/
structure CardView where
  isIsraeliProduct : Bool
  confidenceColor : String
  brandBlock : Option BrandBlock
  timestamp : String

/-- The DetectionResultCard component of DetectionResultCard.tsx. -/
def DetectionResultCard (result : DetectionResult) : CardView :=
  { isIsraeliProduct := result.is_israeli_product
    confidenceColor := getConfidenceColor result.confidence
    brandBlock :=
      match result.brand_info with
      | some info => some ⟨info.name, info.category, info.risk_level⟩
      | none => none
    timestamp := result.timestamp }

/-- The state of the SystemStatus component. -/
structure StatusState where
  modelInfo : Option ModelInfo
  healthStatus : Option Health
  brandsCount : Nat
  isLoading : Bool
  error : Option String

/-- The total product count computed by fetchSystemStatus from the brand
database: the sum of the lengths of the product lists. -/
def totalProducts (brands : BrandDatabase) : Nat :=
  (List.map (fun b => b.2.products.length) brands).sum

/-- fetchSystemStatus of SystemStatus.tsx: set loading, clear the error,
issue one request per endpoint, copy each successful payload into state,
and skip the update for a non-success response. The only statement that
can throw inside the try block is reading the product lists of a
successful brands payload that is null, in which case the catch stores
the fixed error message. The second component counts the endpoint
requests issued. -/
def fetchSystemStatus (s : StatusState) (healthResponse : ApiResponse Health)
    (modelResponse : ApiResponse ModelInfo)
    (brandsResponse : ApiResponse BrandDatabase) : StatusState × Nat :=
  let s1 : StatusState := { s with isLoading := true, error := none }
  let s2 : StatusState :=
    if healthResponse.success then { s1 with healthStatus := healthResponse.data }
    else s1
  let s3 : StatusState :=
    if modelResponse.success then { s2 with modelInfo := modelResponse.data }
    else s2
  match brandsResponse.success, brandsResponse.data with
  | true, some brands =>
      ({ s3 with brandsCount := totalProducts brands, isLoading := false }, 3)
  | true, none =>
      ({ s3 with error := some "Gagal memuat status sistem", isLoading := false }, 3)
  | false, _ => ({ s3 with isLoading := false }, 3)

/-- Modelled from the spec: the backend handler of POST /analyze/batch is
not under src (only its client is); per the spec the batch endpoint takes
multiple images in and returns an ordered array of results out, the order
corresponding to submission order. -/
def batchEndpoint (analyze : JsFile → DetectionResult)
    (images : List JsFile) : List DetectionResult :=
  images.map analyze

/-- A sample detected-features record used by concrete witnesses. -/
def sampleFeatures : DetectedFeatures := ⟨true, false, false, false, false⟩

/-- A sample detection result without brand info. -/
def sampleResult : DetectionResult := ⟨true, 1, sampleFeatures, none, "2024-01-01", none⟩

/-- A sample brand record. -/
def sampleBrand : BrandInfo := ⟨"Brand", "food", .high⟩

/-- A sample detection result carrying brand info. -/
def sampleBranded : DetectionResult :=
  ⟨true, 0.9, sampleFeatures, some sampleBrand, "2024-01-01", none⟩

/-- A sample dashboard state with one history entry. -/
def sampleDash : DashState := ⟨false, none, none, [sampleResult]⟩

/-- A sample image file. -/
def sampleFileA : JsFile := ⟨"a.jpg", "image/jpeg", [1]⟩

/-- Another sample image file. -/
def sampleFileB : JsFile := ⟨"b.jpg", "image/jpeg", [2]⟩

/-- C1: detectProduct prepends the new result to the front of the history,
the resulting list never exceeds 10 entries, the retained previous entries
are the first nine in their original most-recent-first order, and no
deduplication is applied: the new result is always added even when an
equal entry is retained. -/
theorem detectProduct_history_invariant (s : DashState) (data : DetectionResult) :
    (detectProduct s (.ok data)).1.detectionHistory.length ≤ 10 ∧
    (detectProduct s (.ok data)).1.detectionHistory.head? = some data ∧
    (detectProduct s (.ok data)).1.detectionHistory.tail =
      s.detectionHistory.take 9 ∧
    (∀ i, i < 9 →
      ((detectProduct s (.ok data)).1.detectionHistory)[i + 1]? =
        s.detectionHistory[i]?) ∧
    (detectProduct s (.ok data)).1.detectionHistory.countP
        (fun x => decide (x = data)) =
      (s.detectionHistory.take 9).countP (fun x => decide (x = data)) + 1 := by
  refine ⟨?_, rfl, rfl, ?_, ?_⟩
  · simp only [detectProduct, List.length_cons, List.length_take]
    omega
  · intro i hi
    simp only [detectProduct, List.getElem?_cons_succ, List.getElem?_take]
    simp [hi]
  · simp [detectProduct, List.countP_cons]

/-- Witness for C1 at a concrete state and result. -/
theorem detectProduct_history_invariant_witness :
    (0 : Nat) < 9 ∧
    ((detectProduct sampleDash (.ok sampleBranded)).1.detectionHistory)[0 + 1]? =
      sampleDash.detectionHistory[0]? :=
  ⟨by decide, (detectProduct_history_invariant sampleDash sampleBranded).2.2.2.1 0
    (by decide)⟩

/-- C2: for confidences in the unit interval both color bucketings land in
one of the four buckets (the threshold branches cover the range with no
gaps), the bucketing is monotone in the green, yellow, orange, red order,
and the text and background bucketings agree. -/
theorem confidence_bucket_monotone (c1 c2 : ℚ) (h0 : 0 ≤ c1) (hle : c1 ≤ c2)
    (h1 : c2 ≤ 1) :
    getConfidenceColor c1 ∈
      ["text-green-600", "text-yellow-600", "text-orange-600", "text-red-600"] ∧
    getConfidenceColor c2 ∈
      ["text-green-600", "text-yellow-600", "text-orange-600", "text-red-600"] ∧
    getConfidenceBgColor c1 ∈
      ["bg-green-50 border-green-200", "bg-yellow-50 border-yellow-200",
        "bg-orange-50 border-orange-200", "bg-red-50 border-red-200"] ∧
    getConfidenceBgColor c2 ∈
      ["bg-green-50 border-green-200", "bg-yellow-50 border-yellow-200",
        "bg-orange-50 border-orange-200", "bg-red-50 border-red-200"] ∧
    colorRank (getConfidenceColor c1) ≤ colorRank (getConfidenceColor c2) ∧
    bgColorRank (getConfidenceBgColor c1) ≤ bgColorRank (getConfidenceBgColor c2) ∧
    bgColorRank (getConfidenceBgColor c1) = colorRank (getConfidenceColor c1) := by
  unfold getConfidenceColor getConfidenceBgColor
  split_ifs <;>
    first
      | (exfalso; linarith)
      | simp +decide [colorRank, bgColorRank]

/-- Witness for C2 at two concrete confidences. -/
theorem confidence_bucket_monotone_witness :
    ((0 : ℚ) ≤ 0.5 ∧ (0.5 : ℚ) ≤ 0.7 ∧ (0.7 : ℚ) ≤ 1) ∧
    colorRank (getConfidenceColor 0.5) ≤ colorRank (getConfidenceColor 0.7) :=
  ⟨by with_unfolding_all decide,
   (confidence_bucket_monotone 0.5 0.7 (by with_unfolding_all decide)
     (by with_unfolding_all decide) (by with_unfolding_all decide)).2.2.2.2.1⟩

/-- C4: when the API call comes back as a non-success result, detectProduct
leaves the detection result and the history unchanged, stores a non-empty
error message for the banner, clears the in-progress flag, and issues
exactly one request. -/
theorem detectProduct_failure_atomic (s : DashState) (err : Option String) :
    (detectProduct s (.fail err)).1.detectionResult = s.detectionResult ∧
    (detectProduct s (.fail err)).1.detectionHistory = s.detectionHistory ∧
    (∃ msg, (detectProduct s (.fail err)).1.error = some msg ∧ msg ≠ "") ∧
    (detectProduct s (.fail err)).1.isDetecting = false ∧
    (detectProduct s (.fail err)).2 = 1 := by
  refine ⟨rfl, rfl,
    ⟨jsOrString err "Gagal melakukan deteksi produk", rfl, ?_⟩, rfl, rfl⟩
  cases err with
  | none => decide
  | some e =>
      by_cases he : e = ""
      · simp only [jsOrString, he, if_pos rfl]
        decide
      · simp [jsOrString, he]

/-- C6: the DetectionResultCard renders the brand block exactly when brand
info is present, and then with the fields of the brand info. -/
theorem DetectionResultCard_brand_block (result : DetectionResult) :
    ((DetectionResultCard result).brandBlock = none ↔ result.brand_info = none) ∧
    (∀ info, result.brand_info = some info →
      (DetectionResultCard result).brandBlock =
        some ⟨info.name, info.category, info.risk_level⟩) := by
  cases h : result.brand_info <;> simp [DetectionResultCard, h]

/-- Witness for C6 at a concrete branded result. -/
theorem DetectionResultCard_brand_block_witness :
    sampleBranded.brand_info = some sampleBrand ∧
    (DetectionResultCard sampleBranded).brandBlock =
      some ⟨sampleBrand.name, sampleBrand.category, sampleBrand.risk_level⟩ :=
  ⟨rfl, (DetectionResultCard_brand_block sampleBranded).2 sampleBrand rfl⟩

/-- C7: analyzeBatch submits exactly the form data that appends the files in
the order given, and the spec-modelled batch endpoint returns one result
per image with the result at each position produced from the image
submitted at that position. -/
theorem analyzeBatch_preserves_order (imageFiles : List JsFile)
    (analyze : JsFile → DetectionResult) (i : Nat) (file : JsFile)
    (hi : imageFiles[i]? = some file) :
    (∀ fetch, analyzeBatch imageFiles fetch =
        tryHandle "Network error" (fetch (batchFormData imageFiles))) ∧
    (batchFormData imageFiles).length = imageFiles.length ∧
    (batchFormData imageFiles)[i]? = some ("images", file) ∧
    (batchEndpoint analyze imageFiles).length = imageFiles.length ∧
    (batchEndpoint analyze imageFiles)[i]? = some (analyze file) := by
  refine ⟨fun fetch => rfl, by simp [batchFormData], ?_, by simp [batchEndpoint], ?_⟩
  · simp [batchFormData, List.getElem?_map, hi]
  · simp [batchEndpoint, List.getElem?_map, hi]

/-- Witness for C7 at a concrete two-file batch. -/
theorem analyzeBatch_preserves_order_witness :
    ([sampleFileA, sampleFileB][1]? = some sampleFileB) ∧
    (batchFormData [sampleFileA, sampleFileB])[1]? = some ("images", sampleFileB) :=
  ⟨rfl,
   (analyzeBatch_preserves_order [sampleFileA, sampleFileB]
     (fun _ => sampleResult) 1 sampleFileB rfl).2.2.1⟩

/-- The generic HTTP-status fallback message is never empty: it starts with
the five characters of HTTP and a space. -/
lemma httpMessage_ne_empty (status : Nat) (statusText : String) :
    "HTTP " ++ toString status ++ ": " ++ statusText ≠ "" := by
  intro h
  have hlen := congrArg String.length h
  simp only [String.length_append] at hlen
  have h5 : ("HTTP " : String).length = 5 := rfl
  have h2 : (": " : String).length = 2 := rfl
  have h0 : ("" : String).length = 0 := rfl
  rw [h5, h2, h0] at hlen
  omega

/-- C3: a non-2xx response whose JSON error body parses yields a non-success
result with a non-empty error message, namely the detail field when it is
present and non-empty, and otherwise the generic message built from the
status code and status text. -/
theorem handleResponse_non2xx {β : Type} (response : JsResponse β)
    (body : ErrorBody) (hok : response.ok = false)
    (hjson : response.errorJson = .ok body) :
    (handleResponse response).success = false ∧
    ∃ msg, (handleResponse response).error = some msg ∧ msg ≠ "" ∧
      (∀ d, body.detail = some d → d ≠ "" → msg = d) ∧
      ((body.detail = none ∨ body.detail = some "") →
        msg = "HTTP " ++ toString response.status ++ ": " ++ response.statusText) := by
  have huf : handleResponse response =
      ⟨false, none,
        some (jsOrString body.detail
          ("HTTP " ++ toString response.status ++ ": " ++ response.statusText)),
        none⟩ := by
    simp [handleResponse, hok, hjson]
  rw [huf]
  refine ⟨rfl, jsOrString body.detail _, rfl, ?_, ?_, ?_⟩
  · cases hd : body.detail with
    | none => simpa [jsOrString] using httpMessage_ne_empty response.status response.statusText
    | some d =>
        by_cases hde : d = ""
        · simpa [jsOrString, hde] using
            httpMessage_ne_empty response.status response.statusText
        · simpa [jsOrString, hde] using hde
  · intro d hd hde
    simp [jsOrString, hd, hde]
  · intro hd
    rcases hd with hd | hd <;> simp [jsOrString, hd]

/-- Witness for C3 at a concrete 404 response with a detail message. -/
theorem handleResponse_non2xx_witness :
    ((⟨false, 404, "Not Found", .ok ⟨some "missing"⟩,
        .error ⟨true, "x"⟩⟩ : JsResponse Health).ok = false) ∧
    (handleResponse (⟨false, 404, "Not Found", .ok ⟨some "missing"⟩,
        .error ⟨true, "x"⟩⟩ : JsResponse Health)).success = false :=
  ⟨rfl,
   (handleResponse_non2xx
     (⟨false, 404, "Not Found", .ok ⟨some "missing"⟩,
        .error ⟨true, "x"⟩⟩ : JsResponse Health)
     ⟨some "missing"⟩ rfl rfl).1⟩

/-- The outcome shape every DetectionApi method satisfies: a success result
carrying data and no error, or a non-success result carrying no data and
some error string. -/
def totalOutcome {β : Type} (r : ApiResponse β) : Prop :=
  (r.success = true ∧ r.data.isSome = true ∧ r.error = none) ∨
  (r.success = false ∧ r.data = none ∧ ∃ e, r.error = some e)

/-- Every path through the shared try/catch wrapper yields a well-shaped
outcome: throws are caught and converted, never propagated. -/
lemma tryHandle_shape {β : Type} (fallback : String)
    (fetchResult : Except JsThrown (JsResponse β)) :
    totalOutcome (tryHandle fallback fetchResult) := by
  cases fetchResult with
  | error e => exact Or.inr ⟨rfl, rfl, _, rfl⟩
  | ok r =>
      by_cases hok : r.ok = false
      · cases herr : r.errorJson with
        | ok body =>
            right
            simp [tryHandle, handleResponse, hok, herr, totalOutcome]
        | error e =>
            right
            simp [tryHandle, handleResponse, hok, herr, totalOutcome]
      · cases hdat : r.dataJson with
        | ok d =>
            left
            simp [tryHandle, handleResponse, hok, hdat, totalOutcome]
        | error e =>
            right
            simp [tryHandle, handleResponse, hok, hdat, totalOutcome]

/-- C8: every public DetectionApi method is total over its outcomes: for
every fetch outcome, including thrown network errors and unparsable JSON
bodies, it returns either a success result with data or a non-success
result with an error string, never propagating a throw. -/
theorem detectionApi_total_outcomes :
    (∀ (imageFile : JsFile) fetch, totalOutcome (analyzeImage imageFile fetch)) ∧
    (∀ (imageBlob : JsBlob) fetch,
      totalOutcome (analyzeImageFromBlob imageBlob fetch)) ∧
    (∀ (imageFiles : List JsFile) fetch,
      totalOutcome (analyzeBatch imageFiles fetch)) ∧
    (∀ fetchResult, totalOutcome (getModelInfo fetchResult)) ∧
    (∀ fetchResult, totalOutcome (getBrandsDatabase fetchResult)) ∧
    (∀ fetchResult, totalOutcome (healthCheck fetchResult)) :=
  ⟨fun _ fetch => tryHandle_shape _ _,
   fun _ fetch => tryHandle_shape _ _,
   fun _ fetch => tryHandle_shape _ _,
   fun fetchResult => tryHandle_shape _ _,
   fun fetchResult => tryHandle_shape _ _,
   fun fetchResult => tryHandle_shape _ _⟩

/-- C9: the DetectionHistory component renders the empty placeholder for an
empty history before any statistic is computed, and for a non-empty
history the displayed statistics are the entry count, the count of
israeli-product entries, the remainder, and the confidence sum divided by
the non-zero length. -/
theorem DetectionHistory_stats_safe (history : List DetectionResult) :
    (DetectionHistory history = .empty ↔ history = []) ∧
    (∀ st entries, DetectionHistory history = .stats st entries →
      history.length ≠ 0 ∧ entries = history ∧
      st.totalDetections = history.length ∧
      st.israeliProducts =
        (history.filter (fun h => h.is_israeli_product)).length ∧
      st.safeProducts = st.totalDetections - st.israeliProducts ∧
      st.averageConfidence =
        (history.map (fun h => h.confidence)).sum / (history.length : ℚ)) := by
  by_cases hlen : history.length = 0
  · constructor
    · simp [DetectionHistory, hlen, List.length_eq_zero.mp hlen]
    · intro st entries heq
      rw [DetectionHistory, if_pos hlen] at heq
      cases heq
  · constructor
    · constructor
      · intro h
        rw [DetectionHistory, if_neg hlen] at h
        cases h
      · intro h
        subst h
        simp at hlen
    · intro st entries heq
      rw [DetectionHistory, if_neg hlen] at heq
      cases heq
      exact ⟨hlen, rfl, rfl, rfl, rfl, rfl⟩

/-- Witness for C9 at a concrete one-entry history. -/
theorem DetectionHistory_stats_safe_witness :
    DetectionHistory [sampleResult] = .stats ⟨1, 1, 0, 1⟩ [sampleResult] ∧
    ([sampleResult] : List DetectionResult).length ≠ 0 :=
  ⟨by with_unfolding_all decide,
   ((DetectionHistory_stats_safe [sampleResult]).2 ⟨1, 1, 0, 1⟩ [sampleResult]
     (by with_unfolding_all decide)).1⟩

/-- A health response as produced by healthCheck when the network is down:
non-success with the caught error message. -/
def healthFailure : ApiResponse Health := ⟨false, none, some "Network error", none⟩

/-- A successful health response. -/
def healthOk : ApiResponse Health := ⟨true, some ⟨"healthy", true⟩, none, none⟩

/-- A successful model-info response. -/
def modelOk : ApiResponse ModelInfo :=
  ⟨true, some ⟨"ready", none, none, none, none, none, none⟩, none, none⟩

/-- A successful brands-database response with an empty database. -/
def brandsOk : ApiResponse BrandDatabase := ⟨true, some [], none, none⟩

/-- The initial SystemStatus state. -/
def statusStart : StatusState := ⟨none, none, 0, false, none⟩

/-- Counterexample to C5 as stated: when the health endpoint call fails, the
execution leaves the error state unset (the API client converts every
failure into a non-success result, so the catch that would set the error
never fires) and the stale health status is retained, so the failure is
not reported to the user. -/
theorem fetchSystemStatus_failure_unreported :
    healthFailure.success = false ∧
    (fetchSystemStatus statusStart healthFailure modelOk brandsOk).1.error = none ∧
    (fetchSystemStatus statusStart healthFailure modelOk brandsOk).1.healthStatus =
      none :=
  ⟨rfl, rfl, rfl⟩

/-- C5 amended: each execution of fetchSystemStatus issues exactly one
request per endpoint with no retry; a successful endpoint response updates
its piece of state while a failed one leaves it unchanged; a failure never
sets the error state, which is set only when a successful brands response
carries a null body. -/
theorem fetchSystemStatus_amended (s : StatusState) (h : ApiResponse Health)
    (m : ApiResponse ModelInfo) (b : ApiResponse BrandDatabase) :
    (h.success = true → (fetchSystemStatus s h m b).1.healthStatus = h.data) ∧
    (h.success = false → (fetchSystemStatus s h m b).1.healthStatus = s.healthStatus) ∧
    (m.success = true → (fetchSystemStatus s h m b).1.modelInfo = m.data) ∧
    (m.success = false → (fetchSystemStatus s h m b).1.modelInfo = s.modelInfo) ∧
    (∀ brands, b.success = true → b.data = some brands →
      (fetchSystemStatus s h m b).1.brandsCount = totalProducts brands) ∧
    (b.success = false → (fetchSystemStatus s h m b).1.brandsCount = s.brandsCount) ∧
    ((b.success = false ∨ (∃ brands, b.data = some brands)) →
      (fetchSystemStatus s h m b).1.error = none) ∧
    (b.success = true → b.data = none →
      (fetchSystemStatus s h m b).1.error = some "Gagal memuat status sistem") ∧
    (fetchSystemStatus s h m b).2 = 3 := by
  cases hh : h.success <;> cases hm : m.success <;>
    cases hb : b.success <;> cases hbd : b.data <;>
      simp_all [fetchSystemStatus]

/-- Witness for C5 at concrete responses: all three endpoints succeed. -/
theorem fetchSystemStatus_amended_witness :
    healthOk.success = true ∧
    (fetchSystemStatus statusStart healthOk modelOk brandsOk).1.healthStatus =
      healthOk.data :=
  ⟨rfl, (fetchSystemStatus_amended statusStart healthOk modelOk brandsOk).1 rfl⟩

/-- jsSplit never returns an empty list. -/
lemma jsSplit_ne_nil (sep : Char) (l : List Char) : jsSplit sep l ≠ [] := by
  induction l with
  | nil => simp [jsSplit]
  | cons c cs ih =>
      simp only [jsSplit]
      cases hcs : jsSplit sep cs with
      | nil => exact absurd hcs ih
      | cons h t => by_cases hc : c = sep <;> simp [hc]

/-- Splitting a separator-free list gives back the whole list. -/
lemma jsSplit_no_sep (sep : Char) (l : List Char) (hl : sep ∉ l) :
    jsSplit sep l = [l] := by
  induction l with
  | nil => rfl
  | cons c cs ih =>
      have hc : ¬c = sep := fun h => hl (h ▸ List.mem_cons_self c cs)
      have hcs : sep ∉ cs := fun h => hl (List.mem_cons_of_mem c h)
      simp [jsSplit, ih hcs, hc]

/-- Splitting at the first separator isolates the separator-free part before
it. -/
lemma jsSplit_append (sep : Char) (l1 l2 : List Char) (hl1 : sep ∉ l1) :
    jsSplit sep (l1 ++ sep :: l2) = l1 :: jsSplit sep l2 := by
  induction l1 with
  | nil =>
      simp only [List.nil_append, jsSplit]
      cases hcs : jsSplit sep l2 with
      | nil => exact absurd hcs (jsSplit_ne_nil sep l2)
      | cons h t => simp
  | cons c cs ih =>
      have hc : ¬c = sep := fun h => hl1 (h ▸ List.mem_cons_self c cs)
      have hcs : sep ∉ cs := fun h => hl1 (List.mem_cons_of_mem c h)
      simp only [List.cons_append, jsSplit, List.append_eq]
      rw [ih hcs]
      simp [hc]

/-- The lazy group matches exactly the dot-matchable, semicolon-free
characters standing before a semicolon. -/
lemma lazyGroup_append (m r : List Char)
    (hm : ∀ c ∈ m, c ≠ ';' ∧ jsDot c = true) :
    lazyGroup (m ++ ';' :: r) = some m := by
  induction m with
  | nil => simp [lazyGroup]
  | cons c cs ih =>
      obtain ⟨hc, hdot⟩ := hm c (List.mem_cons_self c cs)
      have hcs : ∀ x ∈ cs, x ≠ ';' ∧ jsDot x = true :=
        fun x hx => hm x (List.mem_cons_of_mem c hx)
      simp [lazyGroup, hc, hdot, ih hcs]

/-- The regex finds the MIME group inside a data-URL header. -/
lemma matchColonSemi_data (m r : List Char)
    (hm : ∀ c ∈ m, c ≠ ';' ∧ jsDot c = true) :
    matchColonSemi ('d' :: 'a' :: 't' :: 'a' :: ':' :: (m ++ ';' :: r)) = some m := by
  simp +decide [matchColonSemi, lazyGroup_append m r hm]

/-- The backwards fill loop, run down from k, copies the first k source
entries and keeps the rest of the target. -/
lemma fillLoop_eq (b : List Nat) :
    ∀ (k : Nat) (u : List Nat), u.length = b.length → k ≤ b.length →
      fillLoop b k u = b.take k ++ u.drop k := by
  intro k
  induction k with
  | zero => intro u hu hk; simp [fillLoop]
  | succ n ih =>
      intro u hu hk
      have hn : n < u.length := by omega
      have hb : n < b.length := by omega
      rw [fillLoop, ih (u.set n (b.getD n 0)) (by simp [hu]) (by omega)]
      rw [List.set_eq_take_cons_drop _ hn]
      have hlen : (u.take n).length = n := by simp; omega
      rw [List.drop_left' hlen]
      have htake : List.take (n + 1) b = List.take n b ++ [b[n]] := by
        rw [List.take_succ, List.getElem?_eq_getElem hb]
        rfl
      have hgetD : b.getD n 0 = b[n] := by
        rw [List.getD_eq_getElem?_getD, List.getElem?_eq_getElem hb]
        rfl
      rw [htake, hgetD]
      simp only [List.append_assoc, List.cons_append, List.nil_append]

/-- The Uint8Array built by the while loop equals the decoded byte string in
order. -/
lemma u8arrOf_eq (b : List Nat) : u8arrOf b = b := by
  rw [u8arrOf, fillLoop_eq b b.length (List.replicate b.length 0) (by simp) le_rfl]
  simp

/-- C10: dataURLtoFile is partial at its interface: an input whose part
before the first comma has no colon-semicolon header throws a TypeError
through the non-null assertion, and a well-formed base64 data URL yields a
file whose MIME type is the extracted header group and whose bytes equal
the base64-decoded payload in order. -/
theorem dataURLtoFile_spec :
    (∀ (s : List Char) (filename : String),
      matchColonSemi ((jsSplit ',' s).headD []) = none →
      dataURLtoFile s filename = .error ⟨true, "TypeError"⟩) ∧
    (∀ (mime payload : List Char) (bytes : List Nat) (filename : String),
      (∀ c ∈ mime, c ≠ ';' ∧ c ≠ ',' ∧ jsDot c = true) →
      ',' ∉ payload →
      atob payload = .ok bytes →
      dataURLtoFile ("data:".toList ++ mime ++ ";base64,".toList ++ payload)
          filename =
        .ok ⟨filename, String.mk mime, bytes⟩) := by
  constructor
  · intro s filename hmatch
    have hmatch2 : matchColonSemi ((jsSplit ',' s).head?.getD []) = none := by
      simpa using hmatch
    simp [dataURLtoFile, hmatch2]
  · intro mime payload bytes filename hm hp hatob
    have hm2 : ∀ c ∈ mime, c ≠ ';' ∧ jsDot c = true :=
      fun c hc => ⟨(hm c hc).1, (hm c hc).2.2⟩
    have hform : "data:".toList ++ mime ++ ";base64,".toList ++ payload =
        ('d' :: 'a' :: 't' :: 'a' :: ':' ::
          (mime ++ ';' :: ('b' :: 'a' :: 's' :: 'e' :: '6' :: '4' :: []))) ++
          ',' :: payload := by
      have h1 : "data:".toList = ['d', 'a', 't', 'a', ':'] := rfl
      have h2 : ";base64,".toList =
          [';', 'b', 'a', 's', 'e', '6', '4', ','] := rfl
      rw [h1, h2]
      simp
    have hns : (',' : Char) ∉
        ('d' :: 'a' :: 't' :: 'a' :: ':' ::
          (mime ++ ';' :: ('b' :: 'a' :: 's' :: 'e' :: '6' :: '4' :: []))) := by
      intro hmem
      simp +decide at hmem
      exact (hm ',' hmem).2.1 rfl
    have harr : jsSplit ','
        ("data:".toList ++ mime ++ ";base64,".toList ++ payload) =
        ('d' :: 'a' :: 't' :: 'a' :: ':' ::
          (mime ++ ';' :: ('b' :: 'a' :: 's' :: 'e' :: '6' :: '4' :: []))) ::
          [payload] := by
      rw [hform, jsSplit_append ',' _ payload hns, jsSplit_no_sep ',' payload hp]
    simp only [dataURLtoFile, harr, List.headD_cons,
      matchColonSemi_data mime _ hm2, List.getElem?_cons_succ,
      List.getElem?_cons_zero, atobArg, hatob, u8arrOf_eq]

/-- Witness for C10: a header-free input throws, and a concrete well-formed
data URL decodes to its payload bytes. -/
theorem dataURLtoFile_spec_witness :
    (matchColonSemi ((jsSplit ',' "no-header".toList).headD []) = none ∧
      dataURLtoFile "no-header".toList "x.png" = .error ⟨true, "TypeError"⟩) ∧
    (atob "QUJD".toList = .ok [65, 66, 67] ∧
      dataURLtoFile
          ("data:".toList ++ "image/png".toList ++ ";base64,".toList ++
            "QUJD".toList) "x.png" =
        .ok ⟨"x.png", String.mk "image/png".toList, [65, 66, 67]⟩) :=
  ⟨⟨by decide, dataURLtoFile_spec.1 "no-header".toList "x.png" (by decide)⟩,
   ⟨rfl, dataURLtoFile_spec.2 "image/png".toList "QUJD".toList [65, 66, 67]
     "x.png" (by decide) (by decide) rfl⟩⟩
